import Mathlib

/-!
Verification of the coverburn repository: shallow embedding of the two
heuristic cover-slide scorers (`src/coverscout.py` and `src/cover_scout.py`)
and of the parts of their `main` pipelines that the claims talk about.

Python strings are Lean `String`s, DICOM metadata fields are `Option`-typed
(absence is `none`), Python `float` arithmetic on small integer pixel
dimensions is modelled with `ℚ` (exact for every comparison the code makes
at 16-bit DICOM dimensions), and Python code that can raise is embedded in
`Except String`.
-/

/-- Boolean list-prefix test, used to implement substring search. -/
def isPrefixOfB : List Char → List Char → Bool
  | [], _ => true
  | _ :: _, [] => false
  | a :: as, b :: bs => a == b && isPrefixOfB as bs

/-- Boolean substring test on character lists: Python `needle in haystack`. -/
def containsSub (needle : List Char) : List Char → Bool
  | [] => isPrefixOfB needle []
  | h :: t => isPrefixOfB needle (h :: t) || containsSub needle t

/-- Python `needle in hay` on strings. -/
def strContains (hay needle : String) : Bool :=
  containsSub needle.toList hay.toList

/-- Python `str.upper()` (per-character uppercase), defined by a direct
character-list map so that concrete records compute inside proofs. -/
def pyUpper (s : String) : String := ⟨s.data.map Char.toUpper⟩

/-- Python `str.lower()`, as a direct character-list map. -/
def pyLower (s : String) : String := ⟨s.data.map Char.toLower⟩

/-- Python `s.startswith(pre)`. -/
def pyStartsWith (s pre : String) : Bool := isPrefixOfB pre.toList s.toList

/-- Python `sep.join(parts)`. -/
def joinSep (sep : String) : List String → String
  | [] => ""
  | [x] => x
  | x :: xs => x ++ sep ++ joinSep sep xs

/-- Python truthiness of an optional integer DICOM attribute:
`None` and `0` are falsy, every other integer is truthy. -/
def truthy : Option Int → Bool
  | none => false
  | some n => decide (n ≠ 0)

/-- One parsed DICOM metadata record (pydicom `Dataset`), restricted to the
fields the two scorers read.  Every field is optional: `none` models the
attribute being absent from the file.  `BurnedIn` embeds the source
burned-in-annot/ation flag (name shortened here). -/
structure Dataset where
  Modality : Option String
  PhotometricInterpretation : Option String
  SamplesPerPixel : Option Int
  SeriesDescription : Option String
  ImageType : Option (List String)
  BurnedIn : Option String
  Rows : Option Int
  Columns : Option Int
  InstanceNumber : Option Int
  SOPClassUID : Option String
  ConversionType : Option String
deriving Repr, DecidableEq

/-- `SERIES_HINTS` from coverscout.py. -/
def SERIES_HINTS : List String :=
  ["cover", "label", "slide", "title", "front", "burn",
   "debug", "deid", "doc", "scan doc", "scanned", "report"]

/-- `NON_CT_MODALITIES` from coverscout.py. -/
def NON_CT_MODALITIES : List String := ["OT", "SC", "SM", "XC", "DOC", "PR"]

/-- `ratio` from coverscout.py: `max(r,c)/min(r,c)` guarded against zero
(returns 1.0 when a dimension is zero; the float conversion of a pydicom
integer cannot fail, so the `except` branch is unreachable for our inputs). -/
def ratio (rows cols : Int) : ℚ :=
  if rows = 0 ∨ cols = 0 then 1
  else max (rows : ℚ) (cols : ℚ) / min (rows : ℚ) (cols : ℚ)

/-- One fired rule: a stable rule identifier, its signed weight, and the
human-readable reason string the source appends to `reasons`. -/
structure Signal where
  name : String
  weight : Int
  detail : String
deriving Repr, DecidableEq

/-- One Python statement pair `if c: score += w; reasons.append(d)` acting on
the `(score, reasons)` accumulator. -/
def addIf (c : Bool) (w : Int) (d : String) (sr : Int × List String) :
    Int × List String :=
  if c then (sr.1 + w, sr.2 ++ [d]) else sr

/-- The `for kw in SERIES_HINTS: if kw in series_desc: ...; break` loop of
coverscout.py acting on the accumulator: the first matching keyword (if any)
adds +2 and one reason. -/
def hintStep (series_desc : String) (sr : Int × List String) : Int × List String :=
  match List.find? (fun kw => strContains series_desc kw) SERIES_HINTS with
  | some kw => (sr.1 + 2, sr.2 ++ ["series_desc~" ++ kw])
  | none => sr

/-- The `if rows and cols:` block of coverscout.py (aspect-ratio rule plus the
two mutually exclusive CT downweights) acting on the accumulator.  The
aspect-ratio reason renders the rational ratio with `toString` in place of
the source f-string float formatting. -/
def dimsStep (modality photometric : String) (rows cols : Option Int)
    (sr : Int × List String) : Int × List String :=
  if truthy rows && truthy cols then
    let r := rows.getD 0
    let c := cols.getD 0
    let ar := ratio r c
    let sr := if ar ≥ 13 / 10 then
        (sr.1 + 1, sr.2 ++ ["aspect_ratio=" ++ toString ar]) else sr
    if modality = "CT" ∧ pyStartsWith photometric "MONOCHROME" = true then
      if (r = 512 ∨ r = 1024) ∧ (c = 512 ∨ c = 1024) then
        (sr.1 - 3, sr.2 ++ ["ct_like_square_slice"])
      else (sr.1 - 1, sr.2 ++ ["ct_grayscale"])
    else sr
  else sr

/-- `score_dicom` from coverscout.py, translated statement by statement: the
pair `(score, reasons)` is threaded through the same conditions in the same
order as the Python accumulators. -/
def score_dicom (ds : Dataset) : Int × List String :=
  let modality := pyUpper (ds.Modality.getD "")
  let photometric := pyUpper (ds.PhotometricInterpretation.getD "")
  let samples := ds.SamplesPerPixel
  let series_desc := pyLower (ds.SeriesDescription.getD "")
  let image_type := pyLower (joinSep " " (ds.ImageType.getD []))
  let burned := pyUpper (ds.BurnedIn.getD "")
  let sr : Int × List String := (0, [])
  let sr := addIf (NON_CT_MODALITIES.contains modality) 4 ("modality=" ++ modality) sr
  let sr := addIf (["RGB", "PALETTE COLOR", "YBR_FULL", "YBR_FULL_422"].contains photometric)
      3 ("photometric=" ++ photometric) sr
  let sr := addIf (samples == some 3) 2 "samples_per_pixel=3" sr
  let sr := hintStep series_desc sr
  let sr := addIf (strContains image_type "secondary" || strContains image_type "derived")
      1 "image_type=secondary/derived" sr
  let sr := addIf (burned == "YES") 1 "burned_in_annotation=YES" sr
  let sr := dimsStep modality photometric ds.Rows ds.Columns sr
  let sr := addIf (modality == "" &&
      (["RGB", "PALETTE COLOR"].contains photometric || samples == some 3))
      1 "unknown_modality_but_colorish" sr
  sr

/-! ### The signal-list (SignalEvaluator) view of `score_dicom`

The spec describes the scorer as a pure function from record to an ordered
list of weighted Signals.  The definitions below give that view, one
function per rule, with exactly the source conditions; the aggregation
invariant (claim C1) states that `score_dicom` is the weight-sum / detail
projection of this list. -/

def modalitySignal (modality : String) : List Signal :=
  if NON_CT_MODALITIES.contains modality then
    [⟨"non_ct_modality", 4, "modality=" ++ modality⟩] else []

def photometricSignal (photometric : String) : List Signal :=
  if ["RGB", "PALETTE COLOR", "YBR_FULL", "YBR_FULL_422"].contains photometric then
    [⟨"color_photometric", 3, "photometric=" ++ photometric⟩] else []

def samplesSignal (samples : Option Int) : List Signal :=
  if samples == some 3 then [⟨"samples_per_pixel_3", 2, "samples_per_pixel=3"⟩] else []

def hintSignal (series_desc : String) : List Signal :=
  match List.find? (fun kw => strContains series_desc kw) SERIES_HINTS with
  | some kw => [⟨"series_desc_hint", 2, "series_desc~" ++ kw⟩]
  | none => []

def imageTypeSignal (image_type : String) : List Signal :=
  if strContains image_type "secondary" || strContains image_type "derived" then
    [⟨"secondary_derived", 1, "image_type=secondary/derived"⟩] else []

def burnedSignal (burned : String) : List Signal :=
  if burned == "YES" then [⟨"burned_in", 1, "burned_in_annotation=YES"⟩] else []

def aspectSignalCS (r c : Int) : List Signal :=
  if ratio r c ≥ 13 / 10 then
    [⟨"aspect_ratio", 1, "aspect_ratio=" ++ toString (ratio r c)⟩] else []

def ctSignalCS (modality photometric : String) (r c : Int) : List Signal :=
  if modality = "CT" ∧ pyStartsWith photometric "MONOCHROME" = true then
    if (r = 512 ∨ r = 1024) ∧ (c = 512 ∨ c = 1024) then
      [⟨"ct_like_square_slice", -3, "ct_like_square_slice"⟩]
    else [⟨"ct_grayscale", -1, "ct_grayscale"⟩]
  else []

def dimsSignals (modality photometric : String) (rows cols : Option Int) : List Signal :=
  if truthy rows && truthy cols then
    aspectSignalCS (rows.getD 0) (cols.getD 0) ++
      ctSignalCS modality photometric (rows.getD 0) (cols.getD 0)
  else []

def nudgeSignal (modality photometric : String) (samples : Option Int) : List Signal :=
  if modality == "" &&
      (["RGB", "PALETTE COLOR"].contains photometric || samples == some 3) then
    [⟨"unknown_modality_but_colorish", 1, "unknown_modality_but_colorish"⟩] else []

/-- The SignalEvaluator view of coverscout.py: the ordered list of fired
rules for one record. -/
def evaluate (ds : Dataset) : List Signal :=
  let modality := pyUpper (ds.Modality.getD "")
  let photometric := pyUpper (ds.PhotometricInterpretation.getD "")
  let samples := ds.SamplesPerPixel
  let series_desc := pyLower (ds.SeriesDescription.getD "")
  let image_type := pyLower (joinSep " " (ds.ImageType.getD []))
  let burned := pyUpper (ds.BurnedIn.getD "")
  modalitySignal modality ++ photometricSignal photometric ++
    samplesSignal samples ++ hintSignal series_desc ++
    imageTypeSignal image_type ++ burnedSignal burned ++
    dimsSignals modality photometric ds.Rows ds.Columns ++
    nudgeSignal modality photometric samples

/-- Projection of a signal list to the `(score, reasons)` accumulator shape. -/
def toPair (l : List Signal) : Int × List String :=
  ((l.map Signal.weight).sum, l.map Signal.detail)

lemma addIf_toPair (c : Bool) (n : String) (w : Int) (d : String) (l : List Signal) :
    addIf c w d (toPair l) = toPair (l ++ if c then [⟨n, w, d⟩] else []) := by
  cases c <;> simp [addIf, toPair]

lemma modality_step (m : String) (l : List Signal) :
    addIf (NON_CT_MODALITIES.contains m) 4 ("modality=" ++ m) (toPair l) =
      toPair (l ++ modalitySignal m) := by
  rw [addIf_toPair (n := "non_ct_modality"), modalitySignal]

lemma photometric_step (p : String) (l : List Signal) :
    addIf (["RGB", "PALETTE COLOR", "YBR_FULL", "YBR_FULL_422"].contains p)
        3 ("photometric=" ++ p) (toPair l) =
      toPair (l ++ photometricSignal p) := by
  rw [addIf_toPair (n := "color_photometric"), photometricSignal]

lemma samples_step (s : Option Int) (l : List Signal) :
    addIf (s == some 3) 2 "samples_per_pixel=3" (toPair l) =
      toPair (l ++ samplesSignal s) := by
  rw [addIf_toPair (n := "samples_per_pixel_3"), samplesSignal]

lemma hint_step (sd : String) (l : List Signal) :
    hintStep sd (toPair l) = toPair (l ++ hintSignal sd) := by
  rcases h : List.find? (fun kw => strContains sd kw) SERIES_HINTS with _ | kw <;>
    simp [hintStep, hintSignal, h, toPair]

lemma imageType_step (it : String) (l : List Signal) :
    addIf (strContains it "secondary" || strContains it "derived")
        1 "image_type=secondary/derived" (toPair l) =
      toPair (l ++ imageTypeSignal it) := by
  rw [addIf_toPair (n := "secondary_derived"), imageTypeSignal]

lemma burned_step (b : String) (l : List Signal) :
    addIf (b == "YES") 1 "burned_in_annotation=YES" (toPair l) =
      toPair (l ++ burnedSignal b) := by
  rw [addIf_toPair (n := "burned_in"), burnedSignal]

lemma dims_step (m p : String) (rows cols : Option Int) (l : List Signal) :
    dimsStep m p rows cols (toPair l) = toPair (l ++ dimsSignals m p rows cols) := by
  simp only [dimsStep, dimsSignals, aspectSignalCS, ctSignalCS]
  split_ifs <;> (try simp_all [toPair]) <;> (try omega)

lemma nudge_step (m p : String) (s : Option Int) (l : List Signal) :
    addIf (m == "" && (["RGB", "PALETTE COLOR"].contains p || s == some 3))
        1 "unknown_modality_but_colorish" (toPair l) =
      toPair (l ++ nudgeSignal m p s) := by
  rw [addIf_toPair (n := "unknown_modality_but_colorish"), nudgeSignal]

/-- The score returned by `score_dicom` is exactly the sum of the weights of
the signals `evaluate` emits, and the reason list is exactly their details. -/
lemma score_dicom_eq_evaluate (ds : Dataset) :
    score_dicom ds =
      (((evaluate ds).map Signal.weight).sum, (evaluate ds).map Signal.detail) := by
  show score_dicom ds = toPair (evaluate ds)
  simp only [score_dicom, evaluate]
  rw [show ((0 : Int), ([] : List String)) = toPair [] from rfl]
  rw [modality_step, photometric_step, samples_step, hint_step, imageType_step,
    burned_step, dims_step, nudge_step]
  simp [List.append_assoc]

/-! ### The cover_scout.py scorer

`is_potential_cover_slide` reads the attributes guarded by `hasattr`, so a
missing field skips its block; but the aspect-ratio block divides
`Columns / Rows` with no zero guard, so a record with `Rows == 0` (and
`Columns` present) raises `ZeroDivisionError`.  The embedding therefore
returns `Except String`. -/

/-- Python `str()` of a pydicom multi-valued attribute, as used by
`str(ds.ImageType)` in cover_scout.py.  The element quoting of the Python
rendering is omitted: no keyword tested below contains a quote or a
bracket, so every substring test is unaffected. -/
def pyStrList (l : List String) : String :=
  "[" ++ joinSep ", " l ++ "]"

/-- Result of `is_potential_cover_slide`: the dict
`score / reasons / is_cover_slide` it returns. -/
structure CoverResult where
  score : Int
  reasons : List String
  is_cover_slide : Bool
deriving Repr, DecidableEq

/-- The `ImageType` block of cover_scout.py acting on the accumulator. -/
def imageTypeStep (it : Option (List String)) (sr : Int × List String) :
    Int × List String :=
  match it with
  | some l =>
    let image_type := pyUpper (pyStrList l)
    let sr := addIf (strContains image_type "SECONDARY") 3 "Image Type: SECONDARY" sr
    let sr := addIf (strContains image_type "LOCALIZER" || strContains image_type "SCOUT")
        5 ("Image Type: " ++ image_type) sr
    addIf (strContains image_type "SCREEN" || strContains image_type "SAVE")
        4 "Image Type: SCREEN SAVE" sr
  | none => sr

/-- The `InstanceNumber` block of cover_scout.py. -/
def instanceStep (inum : Option Int) (sr : Int × List String) : Int × List String :=
  match inum with
  | some n => addIf (n == 1) 2 "Instance Number: 1 (first in series)" sr
  | none => sr

/-- The burned-in flag block of cover_scout.py (weight +5 here, unlike the
+1 of coverscout.py; the comparison is against the raw value, not upcased). -/
def burnedStepCS (b : Option String) (sr : Int × List String) : Int × List String :=
  match b with
  | some v => addIf (v == "YES") 5 "Burned In Annotation: YES" sr
  | none => sr

/-- The `SOPClassUID` if/elif block of cover_scout.py. -/
def sopStep (uid? : Option String) (sr : Int × List String) : Int × List String :=
  match uid? with
  | some uid =>
    if uid == "1.2.840.10008.5.1.4.1.1.7" then
      (sr.1 + 4, sr.2 ++ ["SOP Class: Secondary Capture"])
    else if strContains uid "1.2.840.10008.5.1.4.1.1.11" then
      (sr.1 + 3, sr.2 ++ ["SOP Class: Presentation State"])
    else sr
  | none => sr

/-- The `ConversionType` block of cover_scout.py. -/
def conversionStep (ct? : Option String) (sr : Int × List String) : Int × List String :=
  match ct? with
  | some v => addIf (v == "WSD" || v == "SI" || v == "DV") 3 ("Conversion Type: " ++ v) sr
  | none => sr

/-- `is_potential_cover_slide` from cover_scout.py, block by block.  The
final dict carries `is_cover_slide = score >= 3` with the threshold 3 written
literally in the source, independent of the CLI `--min-score`. -/
def is_potential_cover_slide (ds : Dataset) : Except String CoverResult :=
  let sr : Int × List String := (0, [])
  let sr := imageTypeStep ds.ImageType sr
  let sr := instanceStep ds.InstanceNumber sr
  let sr := burnedStepCS ds.BurnedIn sr
  let sr := sopStep ds.SOPClassUID sr
  let sr := conversionStep ds.ConversionType sr
  match ds.Rows, ds.Columns with
  | some r, some c =>
    if r = 0 then Except.error "ZeroDivisionError"
    else
      let ar : ℚ := (c : ℚ) / (r : ℚ)
      let sr := addIf (decide (ar > 3 / 2) || decide (ar < 3 / 5))
          1 ("Unusual aspect ratio: " ++ toString ar) sr
      Except.ok ⟨sr.1, sr.2, decide (sr.1 ≥ 3)⟩
  | _, _ => Except.ok ⟨sr.1, sr.2, decide (sr.1 ≥ 3)⟩

/-! Signal-list view of the cover_scout.py rules. -/

def imageTypeSignalsCS (it : Option (List String)) : List Signal :=
  match it with
  | some l =>
    let image_type := pyUpper (pyStrList l)
    (if strContains image_type "SECONDARY" then
      [⟨"img_secondary", 3, "Image Type: SECONDARY"⟩] else []) ++
    (if strContains image_type "LOCALIZER" || strContains image_type "SCOUT" then
      [⟨"img_localizer_scout", 5, "Image Type: " ++ image_type⟩] else []) ++
    (if strContains image_type "SCREEN" || strContains image_type "SAVE" then
      [⟨"img_screen_save", 4, "Image Type: SCREEN SAVE"⟩] else [])
  | none => []

def instanceSignal (inum : Option Int) : List Signal :=
  match inum with
  | some n => if n == 1 then
      [⟨"instance_number_1", 2, "Instance Number: 1 (first in series)"⟩] else []
  | none => []

def burnedSignalCS (b : Option String) : List Signal :=
  match b with
  | some v => if v == "YES" then
      [⟨"burned_in_cs", 5, "Burned In Annotation: YES"⟩] else []
  | none => []

def sopSignal (uid? : Option String) : List Signal :=
  match uid? with
  | some uid =>
    if uid == "1.2.840.10008.5.1.4.1.1.7" then
      [⟨"sop_secondary_capture", 4, "SOP Class: Secondary Capture"⟩]
    else if strContains uid "1.2.840.10008.5.1.4.1.1.11" then
      [⟨"sop_presentation_state", 3, "SOP Class: Presentation State"⟩]
    else []
  | none => []

def conversionSignal (ct? : Option String) : List Signal :=
  match ct? with
  | some v => if v == "WSD" || v == "SI" || v == "DV" then
      [⟨"conversion_type", 3, "Conversion Type: " ++ v⟩] else []
  | none => []

def aspectSignalUnusual (r c : Int) : List Signal :=
  if (c : ℚ) / (r : ℚ) > 3 / 2 ∨ (c : ℚ) / (r : ℚ) < 3 / 5 then
    [⟨"unusual_aspect_ratio", 1,
      "Unusual aspect ratio: " ++ toString ((c : ℚ) / (r : ℚ))⟩] else []

/-- The SignalEvaluator view of cover_scout.py: the ordered fired-rule list,
or the `ZeroDivisionError` the source raises when `Rows == 0` with `Columns`
present. -/
def cover_scout_evaluate (ds : Dataset) : Except String (List Signal) :=
  let sigs := imageTypeSignalsCS ds.ImageType ++ instanceSignal ds.InstanceNumber ++
      burnedSignalCS ds.BurnedIn ++ sopSignal ds.SOPClassUID ++
      conversionSignal ds.ConversionType
  match ds.Rows, ds.Columns with
  | some r, some c =>
    if r = 0 then Except.error "ZeroDivisionError"
    else Except.ok (sigs ++ aspectSignalUnusual r c)
  | _, _ => Except.ok sigs

/-- Assemble the result dict of cover_scout.py from a signal list. -/
def mkCover (sigs : List Signal) : CoverResult :=
  ⟨(sigs.map Signal.weight).sum, sigs.map Signal.detail,
    decide ((sigs.map Signal.weight).sum ≥ 3)⟩

lemma imageTypeStep_toPair (it : Option (List String)) (l : List Signal) :
    imageTypeStep it (toPair l) = toPair (l ++ imageTypeSignalsCS it) := by
  cases it with
  | none => simp [imageTypeStep, imageTypeSignalsCS, toPair]
  | some v =>
    simp only [imageTypeStep, imageTypeSignalsCS]
    rw [addIf_toPair (n := "img_secondary"), addIf_toPair (n := "img_localizer_scout"),
      addIf_toPair (n := "img_screen_save")]
    simp [List.append_assoc]

lemma instanceStep_toPair (inum : Option Int) (l : List Signal) :
    instanceStep inum (toPair l) = toPair (l ++ instanceSignal inum) := by
  cases inum with
  | none => simp [instanceStep, instanceSignal, toPair]
  | some n =>
    simp only [instanceStep, instanceSignal]
    rw [addIf_toPair (n := "instance_number_1")]

lemma burnedStepCS_toPair (b : Option String) (l : List Signal) :
    burnedStepCS b (toPair l) = toPair (l ++ burnedSignalCS b) := by
  cases b with
  | none => simp [burnedStepCS, burnedSignalCS, toPair]
  | some v =>
    simp only [burnedStepCS, burnedSignalCS]
    rw [addIf_toPair (n := "burned_in_cs")]

lemma sopStep_toPair (u : Option String) (l : List Signal) :
    sopStep u (toPair l) = toPair (l ++ sopSignal u) := by
  cases u with
  | none => simp [sopStep, sopSignal, toPair]
  | some uid =>
    simp only [sopStep, sopSignal]
    split_ifs <;> simp [toPair]

lemma conversionStep_toPair (ct : Option String) (l : List Signal) :
    conversionStep ct (toPair l) = toPair (l ++ conversionSignal ct) := by
  cases ct with
  | none => simp [conversionStep, conversionSignal, toPair]
  | some v =>
    simp only [conversionStep, conversionSignal]
    rw [addIf_toPair (n := "conversion_type")]

lemma aspectUnusual_toPair (r c : Int) (l : List Signal) :
    addIf (decide ((c : ℚ) / (r : ℚ) > 3 / 2) || decide ((c : ℚ) / (r : ℚ) < 3 / 5))
        1 ("Unusual aspect ratio: " ++ toString ((c : ℚ) / (r : ℚ))) (toPair l) =
      toPair (l ++ aspectSignalUnusual r c) := by
  by_cases h1 : (c : ℚ) / (r : ℚ) > 3 / 2 <;> by_cases h2 : (c : ℚ) / (r : ℚ) < 3 / 5 <;>
    simp [addIf, aspectSignalUnusual, toPair, h1, h2]

/-- `is_potential_cover_slide` is the weight-sum / detail projection of the
cover_scout.py signal list (with the flag computed at the literal
threshold 3), including agreement on the raising case. -/
lemma cover_scout_eq_evaluate (ds : Dataset) :
    is_potential_cover_slide ds = Except.map mkCover (cover_scout_evaluate ds) := by
  simp only [is_potential_cover_slide, cover_scout_evaluate]
  rw [show ((0 : Int), ([] : List String)) = toPair [] from rfl]
  rw [imageTypeStep_toPair, instanceStep_toPair, burnedStepCS_toPair, sopStep_toPair,
    conversionStep_toPair]
  cases hR : ds.Rows with
  | none => simp [Except.map, mkCover, toPair]
  | some r =>
    cases hC : ds.Columns with
    | none => simp [Except.map, mkCover, toPair]
    | some c =>
      dsimp only
      by_cases hz : r = 0
      · simp [hz, Except.map]
      · rw [if_neg hz, if_neg hz]
        rw [aspectUnusual_toPair]
        simp [Except.map, mkCover, toPair]

/-! ### The cover_scout.py pipeline (`analyze_dicom_file` and `main`)

`pydicom.dcmread` is external: a file is modelled as its path together with
the adapter outcome, `Except.error` for a read that raises and `Except.ok`
with the parsed record otherwise. -/

/-- The success part of the dict built by `analyze_dicom_file` (the metadata
echo fields are omitted: no claim reads them). -/
structure Analyzed where
  path : String
  score : Int
  is_cover_slide : Bool
  reasons : List String
deriving Repr, DecidableEq

/-- `analyze_dicom_file` from cover_scout.py: the whole body sits in one
`try`, so both a `dcmread` failure and an exception escaping
`is_potential_cover_slide` produce the error dict. -/
def analyze_dicom_file (path : String) (parsed : Except String Dataset) :
    Except String Analyzed :=
  match parsed with
  | Except.error e => Except.error e
  | Except.ok ds =>
    match is_potential_cover_slide ds with
    | Except.error e => Except.error e
    | Except.ok r => Except.ok ⟨path, r.score, r.is_cover_slide, r.reasons⟩

/-- Observable outcome of one cover_scout.py `main` run.  `main` has no
`sys.exit` call: both the missing-root branch (which prints the error and
`return`s) and every complete scan end the process with exit status 0. -/
structure RunResult where
  exitCode : Nat
  errorPrinted : Bool
  scanned : Bool
  results : List Analyzed
  cover_slides : List Analyzed
deriving Repr

/-- `main` from cover_scout.py: root-existence check, per-file analysis with
error dicts dropped (`if "error" not in result`), stable sort by descending
score (`list.sort` with `reverse=True` is stable), and the highlighted
selection `score >= args.min_score`. -/
def cover_scout_main (rootExists : Bool) (files : List (String × Except String Dataset))
    (min_score : Int) : RunResult :=
  if rootExists = false then
    { exitCode := 0, errorPrinted := true, scanned := false, results := [], cover_slides := [] }
  else
    let results := files.filterMap fun pf => (analyze_dicom_file pf.1 pf.2).toOption
    let results := results.mergeSort fun a b => decide (a.score ≥ b.score)
    let cover_slides := results.filter fun r => decide (r.score ≥ min_score)
    { exitCode := 0, errorPrinted := false, scanned := true,
      results := results, cover_slides := cover_slides }

/-! ### The coverscout.py pipeline (`main` scan loop and CSV export) -/

/-- One entry of `rows_out` in coverscout.py `main`, with the dict keys in
their Python insertion order.  Non-string values are rendered to `String`
the way `main` prints them; the claims only count rows and read scores. -/
structure Row where
  path : String
  score : Int
  modality : String
  series_description : String
  photometric : String
  samples_per_pixel : String
  rows : String
  cols : String
  burned_in : String
deriving Repr, DecidableEq

/-- Build the `rows_out` dict for one successfully read file. -/
def mkRow (path : String) (ds : Dataset) : Row :=
  { path := path
    score := (score_dicom ds).1
    modality := ds.Modality.getD ""
    series_description := ds.SeriesDescription.getD ""
    photometric := ds.PhotometricInterpretation.getD ""
    samples_per_pixel := (ds.SamplesPerPixel.map toString).getD ""
    rows := (ds.Rows.map toString).getD ""
    cols := (ds.Columns.map toString).getD ""
    burned_in := ds.BurnedIn.getD "" }

/-- The scan loop of coverscout.py `main`: a failed `dcmread` hits
`except Exception: continue`, touching neither `rows_out` nor `count`; a
success appends its row and increments `count`; with a non-zero `limit`
the loop breaks once `count >= limit`.  Returns `(rows_out, count)`. -/
def scan_loop (limit : Int) : List (String × Except String Dataset) → Int →
    List Row × Int
  | [], count => ([], count)
  | pf :: rest, count =>
    match pf.2 with
    | Except.error _ => scan_loop limit rest count
    | Except.ok ds =>
      let row := mkRow pf.1 ds
      let count := count + 1
      if limit ≠ 0 ∧ count ≥ limit then ([row], count)
      else
        let rc := scan_loop limit rest count
        (row :: rc.1, rc.2)

/-- `rows_out` and `count` after the coverscout.py scan loop. -/
def coverscout_scan (files : List (String × Except String Dataset)) (limit : Int) :
    List Row × Int :=
  scan_loop limit files 0

/-- The dict keys of a `rows_out` entry, in insertion order: the CSV header. -/
def rowKeys : List String :=
  ["path", "score", "modality", "series_description", "photometric",
   "samples_per_pixel", "rows", "cols", "burned_in_annotation"]

/-- The values of one `rows_out` entry, in the same order. -/
def rowValues (r : Row) : List String :=
  [r.path, toString r.score, r.modality, r.series_description, r.photometric,
   r.samples_per_pixel, r.rows, r.cols, r.burned_in]

/-- The `--csv` block of coverscout.py `main`: the field names are taken from
`rows_out[0].keys()`, which raises `IndexError` when `rows_out` is empty;
otherwise the file holds the header row followed by one row per entry. -/
def write_csv (rows_out : List Row) : Except String (List (List String)) :=
  match rows_out with
  | [] => Except.error "IndexError"
  | _ :: _ => Except.ok (rowKeys :: rows_out.map rowValues)

/-! ### Helper lemmas about the per-rule signal lists -/

lemma name_mem_modalitySignal {s : Signal} {m : String} (h : s ∈ modalitySignal m) :
    s.name = "non_ct_modality" := by
  unfold modalitySignal at h; split at h <;> simp_all

lemma name_mem_photometricSignal {s : Signal} {p : String} (h : s ∈ photometricSignal p) :
    s.name = "color_photometric" := by
  unfold photometricSignal at h; split at h <;> simp_all

lemma name_mem_samplesSignal {s : Signal} {x : Option Int} (h : s ∈ samplesSignal x) :
    s.name = "samples_per_pixel_3" := by
  unfold samplesSignal at h; split at h <;> simp_all

lemma name_mem_hintSignal {s : Signal} {sd : String} (h : s ∈ hintSignal sd) :
    s.name = "series_desc_hint" := by
  unfold hintSignal at h
  rcases hf : List.find? (fun kw => strContains sd kw) SERIES_HINTS with _ | kw <;>
    rw [hf] at h <;> simp_all

lemma name_mem_imageTypeSignal {s : Signal} {it : String} (h : s ∈ imageTypeSignal it) :
    s.name = "secondary_derived" := by
  unfold imageTypeSignal at h; split at h <;> simp_all

lemma name_mem_burnedSignal {s : Signal} {b : String} (h : s ∈ burnedSignal b) :
    s.name = "burned_in" := by
  unfold burnedSignal at h; split at h <;> simp_all

lemma name_mem_dimsSignals {s : Signal} {m p : String} {rows cols : Option Int}
    (h : s ∈ dimsSignals m p rows cols) :
    s.name = "aspect_ratio" ∨ s.name = "ct_like_square_slice" ∨ s.name = "ct_grayscale" := by
  unfold dimsSignals aspectSignalCS ctSignalCS at h
  split_ifs at h <;> simp_all <;> (try rcases h with h | h) <;> simp_all

lemma name_mem_nudgeSignal {s : Signal} {m p : String} {x : Option Int}
    (h : s ∈ nudgeSignal m p x) :
    s.name = "unknown_modality_but_colorish" := by
  unfold nudgeSignal at h; split at h <;> simp_all

/-! Filters for the keyword-hint rule name over the other rules are empty. -/

lemma hint_filter_modality (m : String) :
    (modalitySignal m).filter (fun s => s.name == "series_desc_hint") = [] := by
  unfold modalitySignal; split <;> rfl

lemma hint_filter_photometric (p : String) :
    (photometricSignal p).filter (fun s => s.name == "series_desc_hint") = [] := by
  unfold photometricSignal; split <;> rfl

lemma hint_filter_samples (x : Option Int) :
    (samplesSignal x).filter (fun s => s.name == "series_desc_hint") = [] := by
  unfold samplesSignal; split <;> rfl

lemma hint_filter_imageType (it : String) :
    (imageTypeSignal it).filter (fun s => s.name == "series_desc_hint") = [] := by
  unfold imageTypeSignal; split <;> rfl

lemma hint_filter_burned (b : String) :
    (burnedSignal b).filter (fun s => s.name == "series_desc_hint") = [] := by
  unfold burnedSignal; split <;> rfl

lemma hint_filter_dims (m p : String) (rows cols : Option Int) :
    (dimsSignals m p rows cols).filter (fun s => s.name == "series_desc_hint") = [] := by
  unfold dimsSignals aspectSignalCS ctSignalCS; split_ifs <;> rfl

lemma hint_filter_nudge (m p : String) (x : Option Int) :
    (nudgeSignal m p x).filter (fun s => s.name == "series_desc_hint") = [] := by
  unfold nudgeSignal; split <;> rfl

/-! Weight-sum bounds of the individual rules, for the global lower bound. -/

lemma sum_modalitySignal_nonneg (m : String) :
    0 ≤ ((modalitySignal m).map Signal.weight).sum := by
  unfold modalitySignal; split <;> simp

lemma sum_photometricSignal_nonneg (p : String) :
    0 ≤ ((photometricSignal p).map Signal.weight).sum := by
  unfold photometricSignal; split <;> simp

lemma sum_samplesSignal_nonneg (x : Option Int) :
    0 ≤ ((samplesSignal x).map Signal.weight).sum := by
  unfold samplesSignal; split <;> simp

lemma sum_hintSignal_nonneg (sd : String) :
    0 ≤ ((hintSignal sd).map Signal.weight).sum := by
  unfold hintSignal
  rcases hf : List.find? (fun kw => strContains sd kw) SERIES_HINTS with _ | kw <;>
    simp [hf]

lemma sum_imageTypeSignal_nonneg (it : String) :
    0 ≤ ((imageTypeSignal it).map Signal.weight).sum := by
  unfold imageTypeSignal; split <;> simp

lemma sum_burnedSignal_nonneg (b : String) :
    0 ≤ ((burnedSignal b).map Signal.weight).sum := by
  unfold burnedSignal; split <;> simp

lemma sum_nudgeSignal_nonneg (m p : String) (x : Option Int) :
    0 ≤ ((nudgeSignal m p x).map Signal.weight).sum := by
  unfold nudgeSignal; split <;> simp

/-- The guarded dims block contributes at least −3: the two CT downweights sit
in mutually exclusive branches of one if/else, so at most one fires, and the
aspect-ratio rule can only add. -/
lemma sum_dimsSignals_ge (m p : String) (rows cols : Option Int) :
    -3 ≤ ((dimsSignals m p rows cols).map Signal.weight).sum := by
  unfold dimsSignals aspectSignalCS ctSignalCS
  split_ifs <;> simp

/-! Counting helpers for the scan pipelines. -/

lemma length_filterMap_add_countP_isNone {α β : Type} (f : α → Option β) (l : List α) :
    (l.filterMap f).length + l.countP (fun x => (f x).isNone) = l.length := by
  induction l with
  | nil => simp
  | cons a t ih =>
    cases h : f a <;> simp [List.filterMap_cons, List.countP_cons, h] <;> omega

lemma scan_loop_zero_limit (files : List (String × Except String Dataset)) :
    ∀ count, ((scan_loop 0 files count).1).length
      + files.countP (fun pf => pf.2.toOption.isNone) = files.length := by
  induction files with
  | nil => intro count; simp [scan_loop]
  | cons pf rest ih =>
    intro count
    cases h : pf.2 with
    | error e =>
      have := ih count
      simp [scan_loop, h, List.countP_cons, Except.toOption] at this ⊢
      omega
    | ok ds =>
      have := ih (count + 1)
      simp [scan_loop, h, List.countP_cons, Except.toOption] at this ⊢
      omega

/-! ### Concrete records used by witnesses and counterexamples -/

/-- A plain CT slice: modality CT, MONOCHROME2, 512 by 512, nothing else. -/
def dsCT : Dataset :=
  ⟨some "CT", some "MONOCHROME2", none, none, none, none, some 512, some 512, none, none, none⟩

/-- A degenerate record with `Rows == 0` and `Columns` present. -/
def dsRows0 : Dataset :=
  ⟨none, none, none, none, none, none, some 0, some 512, none, none, none⟩

/-- A screen-capture-looking record: only `ImageType = ["SCREEN"]`. -/
def dsScreen : Dataset :=
  ⟨none, none, none, none, some ["SCREEN"], none, none, none, none, none, none⟩

/-- A two-file tree: one readable screen capture, one unreadable file. -/
def filesW : List (String × Except String Dataset) :=
  [("a", Except.ok dsScreen), ("b", Except.error "bad")]

/-! ### Claims -/

/-- Claim C1: for every metadata record, the total score returned by each
signal evaluator equals the sum of the weights of the signals it emits for
that record; each firing rule contributes exactly its weight and appends
exactly one reason, and no score change occurs without a reason.  Stated as:
`score_dicom` is exactly the weight-sum / detail projection of `evaluate`,
and `is_potential_cover_slide` is exactly `mkCover` (weight sum, details,
flag at threshold 3) of `cover_scout_evaluate`, including on the raising
record. -/
theorem c1_score_is_sum_of_signal_weights (ds : Dataset) :
    score_dicom ds =
        (((evaluate ds).map Signal.weight).sum, (evaluate ds).map Signal.detail) ∧
      is_potential_cover_slide ds = Except.map mkCover (cover_scout_evaluate ds) :=
  ⟨score_dicom_eq_evaluate ds, cover_scout_eq_evaluate ds⟩

/-- Claim C4, counterexample: with a missing root directory, cover_scout.py
`main` prints the error and then plain-`return`s, so the process exit status
is 0, not the non-zero status the claim requires. -/
theorem c4_counterexample_missing_root_exits_zero :
    (cover_scout_main false [] 3).exitCode = 0 ∧
      (cover_scout_main false [] 3).errorPrinted = true := ⟨rfl, rfl⟩

/-- Claim C4, amended: if the root directory does not exist the program
prints an error and returns before any scanning starts, but the process
still exits with status 0; if the root exists it also exits 0, even when
zero candidates are found. -/
theorem c4_amended_exit_behavior (files : List (String × Except String Dataset)) (T : Int) :
    (cover_scout_main false files T).exitCode = 0 ∧
      (cover_scout_main false files T).errorPrinted = true ∧
      (cover_scout_main false files T).scanned = false ∧
      (cover_scout_main true files T).exitCode = 0 ∧
      (cover_scout_main true files T).errorPrinted = false := by
  simp [cover_scout_main]

/-- Claim C8: the description-keyword rule contributes at most +2 to the
total score and emits at most one signal per record, however many of the
configured keywords occur in the description: among all signals `evaluate`
emits, those of the keyword rule number at most one and their weights sum to
at most 2. -/
theorem c8_keyword_rule_fires_at_most_once (ds : Dataset) :
    ((evaluate ds).filter (fun s => s.name == "series_desc_hint")).length ≤ 1 ∧
      (((evaluate ds).filter (fun s => s.name == "series_desc_hint")).map
          Signal.weight).sum ≤ 2 := by
  have key : (evaluate ds).filter (fun s => s.name == "series_desc_hint")
      = (hintSignal (pyLower (ds.SeriesDescription.getD ""))).filter
          (fun s => s.name == "series_desc_hint") := by
    simp only [evaluate, List.filter_append, hint_filter_modality, hint_filter_photometric,
      hint_filter_samples, hint_filter_imageType, hint_filter_burned, hint_filter_dims,
      hint_filter_nudge, List.nil_append, List.append_nil]
  rw [key]
  rcases hf : List.find? (fun kw =>
      strContains (pyLower (ds.SeriesDescription.getD "")) kw) SERIES_HINTS with _ | kw <;>
    simp [hintSignal, hf, List.filter]

/-- Claim C9 (code bug evidence): the CSV export of coverscout.py takes its
field names from `rows_out[0].keys()`, so a completed run that produced zero
findings raises `IndexError` instead of writing the header-only file the
claim describes. -/
theorem c9_csv_raises_indexerror_on_empty_report :
    write_csv [] = Except.error "IndexError" := rfl

/-- Claim C10: for every metadata record the total coverscout.py score is at
least −3: the only negative-weight rules are the two clinical downweights
(−3 and −1), which sit in mutually exclusive if/else branches, and every
other rule contributes a nonnegative weight. -/
theorem c10_total_score_at_least_neg_three (ds : Dataset) :
    -3 ≤ (score_dicom ds).1 := by
  rw [score_dicom_eq_evaluate ds]
  dsimp only
  simp only [evaluate, List.map_append, List.sum_append]
  have h1 := sum_modalitySignal_nonneg (pyUpper (ds.Modality.getD ""))
  have h2 := sum_photometricSignal_nonneg (pyUpper (ds.PhotometricInterpretation.getD ""))
  have h3 := sum_samplesSignal_nonneg ds.SamplesPerPixel
  have h4 := sum_hintSignal_nonneg (pyLower (ds.SeriesDescription.getD ""))
  have h5 := sum_imageTypeSignal_nonneg (pyLower (joinSep " " (ds.ImageType.getD [])))
  have h6 := sum_burnedSignal_nonneg (pyUpper (ds.BurnedIn.getD ""))
  have h7 := sum_dimsSignals_ge (pyUpper (ds.Modality.getD ""))
    (pyUpper (ds.PhotometricInterpretation.getD "")) ds.Rows ds.Columns
  have h8 := sum_nudgeSignal_nonneg (pyUpper (ds.Modality.getD ""))
    (pyUpper (ds.PhotometricInterpretation.getD "")) ds.SamplesPerPixel
  linarith

/-- Claim C7: every record with modality CT, photometric MONOCHROME2 and
512 by 512 dimensions fires the clinical-square-slice downweight (weight −3)
and does not fire the unknown-modality color nudge, whatever its other
fields hold. -/
theorem c7_ct_square_downweight_no_nudge (ds : Dataset)
    (hm : ds.Modality = some "CT")
    (hp : ds.PhotometricInterpretation = some "MONOCHROME2")
    (hr : ds.Rows = some 512) (hc : ds.Columns = some 512) :
    (⟨"ct_like_square_slice", -3, "ct_like_square_slice"⟩ : Signal) ∈ evaluate ds ∧
      ∀ s ∈ evaluate ds, s.name ≠ "unknown_modality_but_colorish" := by
  have hup : pyUpper ((some "CT").getD "") = "CT" := rfl
  have hup2 : pyUpper ((some "MONOCHROME2").getD "") = "MONOCHROME2" := rfl
  have har : ratio 512 512 < 13 / 10 := by norm_num [ratio]
  have hdims : dimsSignals "CT" "MONOCHROME2" (some 512) (some 512)
      = [⟨"ct_like_square_slice", -3, "ct_like_square_slice"⟩] := by
    simp [dimsSignals, aspectSignalCS, ctSignalCS, truthy, not_le.mpr har,
      show pyStartsWith "MONOCHROME2" "MONOCHROME" = true from rfl]
  have hnud : ∀ x, nudgeSignal "CT" "MONOCHROME2" x = [] := by
    intro x
    simp [nudgeSignal, show (("CT" : String) == "") = false from rfl]
  constructor
  · simp only [evaluate, hm, hp, hr, hc, hup, hup2, hdims]
    simp [List.mem_append]
  · intro s hs
    simp only [evaluate, hm, hp, hr, hc, hup, hup2, hdims, hnud, List.append_nil,
      List.mem_append] at hs
    rcases hs with ((((((h | h) | h) | h) | h) | h) | h)
    · rw [name_mem_modalitySignal h]; decide
    · rw [name_mem_photometricSignal h]; decide
    · rw [name_mem_samplesSignal h]; decide
    · rw [name_mem_hintSignal h]; decide
    · rw [name_mem_imageTypeSignal h]; decide
    · rw [name_mem_burnedSignal h]; decide
    · simp only [List.mem_singleton] at h; rw [h]; decide

/-- Witness for C7 at the concrete record `dsCT`. -/
theorem c7_witness :
    (⟨"ct_like_square_slice", -3, "ct_like_square_slice"⟩ : Signal) ∈ evaluate dsCT ∧
      ∀ s ∈ evaluate dsCT, s.name ≠ "unknown_modality_but_colorish" :=
  c7_ct_square_downweight_no_nudge dsCT rfl rfl rfl rfl

/-- Claim C3, counterexample: the cover_scout.py evaluator is not total — on
a record with `Rows == 0` and `Columns` present it raises
`ZeroDivisionError` from the unguarded `ds.Columns / ds.Rows`. -/
theorem c3_counterexample_rows_zero_raises :
    is_potential_cover_slide dsRows0 = Except.error "ZeroDivisionError" := rfl

/-- Claim C3, amended: coverscout.py guards its ratio against zero (a zero
dimension yields ratio 1.0 and cannot raise), but cover_scout.py raises
exactly when `Rows` is present with value 0 and `Columns` is present; all
other records, including ones with absent fields, evaluate without error. -/
theorem c3_amended_evaluator_totality :
    (∀ r c : Int, r = 0 ∨ c = 0 → ratio r c = 1) ∧
      ∀ ds : Dataset,
        (∃ e, is_potential_cover_slide ds = Except.error e) ↔
          (ds.Rows = some 0 ∧ ds.Columns ≠ none) := by
  constructor
  · intro r c h; unfold ratio; rw [if_pos h]
  · intro ds
    rw [cover_scout_eq_evaluate]
    simp only [cover_scout_evaluate]
    cases hR : ds.Rows with
    | none => simp [Except.map]
    | some r =>
      cases hC : ds.Columns with
      | none => simp [Except.map]
      | some c =>
        dsimp only
        by_cases hz : r = 0
        · subst hz; simp [Except.map]
        · simp [hz, Except.map]

/-- Witness for C3 (amended) at the concrete inputs `0, 512` and `dsRows0`. -/
theorem c3_witness :
    ratio 0 512 = 1 ∧ ∃ e, is_potential_cover_slide dsRows0 = Except.error e :=
  ⟨c3_amended_evaluator_totality.1 0 512 (Or.inl rfl),
    (c3_amended_evaluator_totality.2 dsRows0).mpr ⟨rfl, by simp [dsRows0]⟩⟩

/-- Claim C6, counterexample: the aspect-ratio rules do not fire exactly when
`max(rows,cols)/min(rows,cols)` strictly exceeds the threshold.  At
rows 10, cols 13 the ratio equals 1.3 exactly — it does not strictly exceed
the coverscout.py threshold 1.3 — yet the rule fires (the source tests
`>= 1.3`).  At rows 1000, cols 640 the max/min ratio is 1.5625 > 1.5, yet
the cover_scout.py rule does not fire (the source tests the asymmetric
`cols/rows > 1.5 or cols/rows < 0.6`, and 0.64 triggers neither). -/
theorem c6_counterexample_thresholds :
    (aspectSignalCS 10 13 ≠ [] ∧ ¬(ratio 10 13 > 13 / 10)) ∧
      (aspectSignalUnusual 1000 640 = [] ∧ ratio 1000 640 > 3 / 2) := by
  have h1 : ratio 10 13 = 13 / 10 := by norm_num [ratio, max_def, min_def]
  have h2 : ratio 1000 640 = 25 / 16 := by norm_num [ratio, max_def, min_def]
  refine ⟨⟨?_, ?_⟩, ?_, ?_⟩
  · simp [aspectSignalCS, h1]
  · rw [h1]; simp
  · simp only [aspectSignalUnusual]; norm_num
  · rw [h2]; norm_num

/-- Claim C6, amended: with both dimensions present and truthy, the
coverscout.py rule fires exactly when `max/min >= 1.3` (non-strict), and the
cover_scout.py rule (reachable only when rows is non-zero, else the code
raises) fires exactly when `cols/rows > 1.5` or `cols/rows < 0.6`, which is
not symmetric in max/min. -/
theorem c6_amended_aspect_conditions (r c : Int) :
    (aspectSignalCS r c ≠ [] ↔ ratio r c ≥ 13 / 10) ∧
      (r ≠ 0 → (aspectSignalUnusual r c ≠ [] ↔
        ((c : ℚ) / (r : ℚ) > 3 / 2 ∨ (c : ℚ) / (r : ℚ) < 3 / 5))) := by
  constructor
  · unfold aspectSignalCS; split <;> simp_all
  · intro _; unfold aspectSignalUnusual; split <;> simp_all

/-- Witness for C6 (amended) at the concrete dimension pairs. -/
theorem c6_witness :
    (aspectSignalCS 10 13 ≠ [] ↔ ratio 10 13 ≥ 13 / 10) ∧
      (aspectSignalUnusual 1000 640 ≠ [] ↔
        (((640 : Int) : ℚ) / ((1000 : Int) : ℚ) > 3 / 2 ∨
          ((640 : Int) : ℚ) / ((1000 : Int) : ℚ) < 3 / 5)) :=
  ⟨(c6_amended_aspect_conditions 10 13).1,
    (c6_amended_aspect_conditions 1000 640).2 (by norm_num)⟩

/-- Claim C2, counterexample: the `is_cover_slide` flag is computed against
the literal threshold 3 inside `is_potential_cover_slide`, not against the
configured `--min-score`.  A record scoring 4 carries flag `true`, yet at
threshold 5 it is not a candidate (`4 >= 5` is false) and is excluded from
the highlighted selection — so the stored flag does not equal
`score >= T`. -/
theorem c2_counterexample_stale_flag :
    is_potential_cover_slide dsScreen =
        Except.ok ⟨4, ["Image Type: SCREEN SAVE"], true⟩ ∧
      (cover_scout_main true [("a", Except.ok dsScreen)] 5).cover_slides = [] ∧
      ¬((4 : Int) ≥ 5) := by
  refine ⟨rfl, ?_, by norm_num⟩
  have h : analyze_dicom_file "a" (Except.ok dsScreen) =
      Except.ok ⟨"a", 4, true, ["Image Type: SCREEN SAVE"]⟩ := rfl
  simp [cover_scout_main, h, Except.toOption, List.mergeSort_singleton]

/-- Claim C2, amended: the per-finding flag always equals `score >= 3`
(the source literal), independent of the configured threshold; the run's
highlighted candidate set, by contrast, is recomputed against the configured
threshold: a finding is selected iff it is in the report and its score
reaches `--min-score`. -/
theorem c2_amended_flag_and_selection :
    (∀ (ds : Dataset) (res : CoverResult), is_potential_cover_slide ds = Except.ok res →
        res.is_cover_slide = decide (res.score ≥ 3)) ∧
      ∀ (files : List (String × Except String Dataset)) (T : Int) (a : Analyzed),
        a ∈ (cover_scout_main true files T).cover_slides ↔
          a ∈ (cover_scout_main true files T).results ∧ a.score ≥ T := by
  constructor
  · intro ds res h
    rw [cover_scout_eq_evaluate] at h
    cases hE : cover_scout_evaluate ds with
    | error e => rw [hE] at h; simp [Except.map] at h
    | ok sigs =>
      rw [hE] at h
      simp only [Except.map, Except.ok.injEq] at h
      rw [← h]
      simp [mkCover]
  · intro files T a
    simp [cover_scout_main, List.mem_filter]

/-- Witness for C2 (amended) at the concrete record `dsScreen`. -/
theorem c2_witness :
    (⟨4, ["Image Type: SCREEN SAVE"], true⟩ : CoverResult).is_cover_slide =
      decide ((⟨4, ["Image Type: SCREEN SAVE"], true⟩ : CoverResult).score ≥ 3) :=
  c2_amended_flag_and_selection.1 dsScreen ⟨4, ["Image Type: SCREEN SAVE"], true⟩ rfl

/-- Claim C5, counterexample: processing one file whose read raises leaves
the coverscout.py loop state — `rows_out` and the only counter `count` —
exactly at its initial value `([], 0)`: the file is indeed absent from the
report, but no counter records the failure, so nothing in the program state
satisfies `entries + recorded failures = 1`. -/
theorem c5_counterexample_no_failure_counter :
    coverscout_scan [("f1", Except.error "read failure")] 0 = ([], 0) := rfl

/-- Claim C5, amended: a file that raises during metadata parsing is absent
from the final report, and the number of report entries equals the number of
successfully analyzed files — so entries plus failing files equals the total
considered — but neither script maintains a failure counter; the failure
count is only derivable from the outcomes (cover_scout.py counts nothing,
coverscout.py `count` counts successes). -/
theorem c5_amended_failures_only_derivable
    (files : List (String × Except String Dataset)) (T : Int) :
    ((cover_scout_main true files T).results.length +
        files.countP (fun pf => ((analyze_dicom_file pf.1 pf.2).toOption).isNone) =
      files.length) ∧
      ((coverscout_scan files 0).1.length +
          files.countP (fun pf => pf.2.toOption.isNone) = files.length) ∧
      ∀ a ∈ (cover_scout_main true files T).results,
        ∃ pf ∈ files, analyze_dicom_file pf.1 pf.2 = Except.ok a := by
  have hres : (cover_scout_main true files T).results =
      (files.filterMap fun pf => (analyze_dicom_file pf.1 pf.2).toOption).mergeSort
        (fun a b => decide (a.score ≥ b.score)) := by
    simp [cover_scout_main]
  refine ⟨?_, scan_loop_zero_limit files 0, ?_⟩
  · rw [hres, List.length_mergeSort]
    exact length_filterMap_add_countP_isNone _ _
  · intro a ha
    rw [hres, List.mem_mergeSort, List.mem_filterMap] at ha
    obtain ⟨pf, hpf, hfa⟩ := ha
    refine ⟨pf, hpf, ?_⟩
    cases hA : analyze_dicom_file pf.1 pf.2 with
    | error e => rw [hA] at hfa; simp [Except.toOption] at hfa
    | ok b => rw [hA] at hfa; simp [Except.toOption] at hfa; rw [hfa]

/-- Witness for C5 (amended) on the concrete two-file tree `filesW`. -/
theorem c5_witness :
    ((cover_scout_main true filesW 3).results.length +
        filesW.countP (fun pf => ((analyze_dicom_file pf.1 pf.2).toOption).isNone) =
      filesW.length) ∧
      ∃ pf ∈ filesW, analyze_dicom_file pf.1 pf.2 =
        Except.ok ⟨"a", 4, true, ["Image Type: SCREEN SAVE"]⟩ := by
  refine ⟨(c5_amended_failures_only_derivable filesW 3).1, ?_⟩
  apply (c5_amended_failures_only_derivable filesW 3).2.2
  have h : analyze_dicom_file "a" (Except.ok dsScreen) =
      Except.ok ⟨"a", 4, true, ["Image Type: SCREEN SAVE"]⟩ := rfl
  simp [cover_scout_main, filesW, h, Except.toOption, List.mergeSort_singleton]
